/-
Verification of the tutoring-marketplace backend's authentication and
analytics layer, as a shallow embedding of the Python source
(`backend/app/api/auth.py`, `backend/app/core/auth.py`,
`backend/app/api/analytics.py`, `backend/app/api/teachers.py`,
`backend/app/api/appointments.py`, `backend/app/db/crud.py`).

Modelling conventions:
- scores and rating values are rationals (the Python code uses floats; the
  claims are about the algorithms, not binary float representation);
- timestamps are natural numbers (minutes); `datetime.utcnow()` becomes an
  explicit `now : Nat` parameter;
- the database session is explicit state: a mutating endpoint returns the
  committed record(s) together with its outcome, so `db.commit()` is
  modelled by the returned state and an uncommitted `HTTPException` path
  returns the state unchanged;
- `round(x, 1)` is Python's round-half-to-even applied at one decimal;
- JWT signing/decoding is modelled abstractly: a token carries its payload
  and the key it was signed with, and decoding with a key succeeds exactly
  when the keys agree and the token is not expired (HS256 signature check
  and `exp` check of the `jose` library).
-/
import Mathlib

namespace Edu

/-! ## Python `round(x, 1)` (banker's rounding at one decimal) -/

/-- Round a rational to the nearest integer, ties to even
(Python's `round` on exact values). -/
def roundHalfEven (q : ℚ) : ℤ :=
  if q - ⌊q⌋ < 1/2 then ⌊q⌋
  else if 1/2 < q - ⌊q⌋ then ⌊q⌋ + 1
  else if Even ⌊q⌋ then ⌊q⌋ else ⌊q⌋ + 1

/-- Python `round(q, 1)`: round to one decimal place, ties to even. -/
def round1 (q : ℚ) : ℚ := (roundHalfEven (q * 10) : ℚ) / 10

/-! ## Data model (backend/app/models/database.py) -/

/-- Aggregate rating statistics, the dictionary returned by
`CRUDReview.get_teacher_rating_stats` and the shape of the teacher's
`detailed_ratings` JSON blob. -/
structure RatingStats where
  overall : ℚ
  teaching : ℚ
  patience : ℚ
  communication : ℚ
  effectiveness : ℚ
  count : ℕ
deriving DecidableEq, Repr

/-- The `ratings` JSON blob on a Review: five dimensions, each possibly
absent (the code reads them with `r.ratings.get(dim, 0)`). -/
structure Ratings where
  overall : Option ℚ
  teaching : Option ℚ
  patience : Option ℚ
  communication : Option ℚ
  effectiveness : Option ℚ
deriving DecidableEq, Repr

/-- `users` table row (the fields the auth and analytics layer touches). -/
structure UserRec where
  id : String
  name : String
  email : String
  role : String
  hashed_password : String
  is_active : Bool
  last_login : Option ℕ
  login_attempts : ℕ
  locked_until : Option ℕ
  rating : ℚ
  reviews_count : ℕ
  detailed_ratings : Option RatingStats
deriving DecidableEq, Repr

/-- `appointments` table row (fields used by the claims). -/
structure AppointmentRec where
  id : String
  teacher_id : String
  student_id : Option String
  status : String
deriving DecidableEq, Repr

/-- `reviews` table row (fields used by the claims). -/
structure ReviewRec where
  id : String
  appointment_id : String
  teacher_id : String
  student_name : String
  ratings : Ratings
  is_recommended : Bool
  date : ℕ
deriving DecidableEq, Repr

/-- `score_records` table row (fields used by the claims). -/
structure ScoreRecord where
  student_id : String
  teacher_id : String
  subject : String
  before_score : ℚ
  after_score : ℚ
  lesson_count : ℕ
  date : ℕ
deriving DecidableEq, Repr, Inhabited

/-! ## Token service (backend/app/core/auth.py)

JWT encode/decode is modelled abstractly: `jwt.encode(payload, key)`
produces a token that records its payload and signing key, and
`jwt.decode(token, key)` succeeds exactly when the keys agree (HS256
signature check) and the token has not expired (`exp` check), raising
`JWTError` otherwise — modelled as `Option`. -/

/-- JWT payload as built by `create_access_token` / `create_refresh_token`:
the claims `sub`, `email`, `role`, `name` (each possibly absent in an
arbitrary token), the expiry `exp`, and the type tag. -/
structure Claims where
  sub : Option String
  email : Option String
  role : Option String
  name : Option String
  exp : ℕ
  type : String
deriving DecidableEq, Repr

/-- A signed token: payload plus the key it was signed with. -/
structure Token where
  claims : Claims
  key : ℕ
deriving DecidableEq, Repr

/-- `TokenData` (backend/app/models/schemas.py) as produced by the
verifiers. -/
structure TokenData where
  user_id : String
  email : String
  role : Option String
  exp : ℕ
deriving DecidableEq, Repr

/-- `SECRET_KEY`: signing key for access and password-reset tokens. -/
def SECRET_KEY : ℕ := 0

/-- `REFRESH_SECRET_KEY`: the independently generated signing key for
refresh tokens. -/
def REFRESH_SECRET_KEY : ℕ := 1

/-- `ACCESS_TOKEN_EXPIRE_MINUTES = 30`. -/
def ACCESS_TOKEN_EXPIRE_MINUTES : ℕ := 30

/-- `REFRESH_TOKEN_EXPIRE_DAYS = 7`, in minutes. -/
def REFRESH_TOKEN_EXPIRE_MINUTES : ℕ := 7 * 24 * 60

/-- `jwt.decode(token, key)`: signature check (keys agree) and expiry
check; any failure raises `JWTError`, modelled as `none`. -/
def jwtDecode (token : Token) (key : ℕ) (now : ℕ) : Option Claims :=
  if token.key ≠ key then none
  else if token.claims.exp ≤ now then none
  else some token.claims

/-- `AuthManager.create_access_token`: copies the payload, stamps
`exp = now + 30 minutes` (or the supplied `expires_delta`) and
`type = "access"`, signs with `SECRET_KEY`. -/
def create_access_token (sub email role name : Option String)
    (expires_delta : Option ℕ) (now : ℕ) : Token :=
  let expire := match expires_delta with
    | some d => now + d
    | none => now + ACCESS_TOKEN_EXPIRE_MINUTES
  { claims := { sub := sub, email := email, role := role, name := name,
                exp := expire, type := "access" },
    key := SECRET_KEY }

/-- `AuthManager.create_refresh_token`: stamps `exp = now + 7 days` and
`type = "refresh"`, signs with `REFRESH_SECRET_KEY`. -/
def create_refresh_token (sub email role name : Option String)
    (now : ℕ) : Token :=
  { claims := { sub := sub, email := email, role := role, name := name,
                exp := now + REFRESH_TOKEN_EXPIRE_MINUTES, type := "refresh" },
    key := REFRESH_SECRET_KEY }

/-- `AuthManager.verify_access_token`: decode with `SECRET_KEY`, require
`type == "access"`, require `sub` and `email` present; every failure
returns `None`. -/
def verify_access_token (token : Token) (now : ℕ) : Option TokenData :=
  match jwtDecode token SECRET_KEY now with
  | none => none
  | some payload =>
    if payload.type ≠ "access" then none
    else match payload.sub, payload.email with
      | some user_id, some email =>
        some { user_id := user_id, email := email, role := payload.role,
               exp := payload.exp }
      | _, _ => none

/-- `AuthManager.verify_refresh_token`: decode with `REFRESH_SECRET_KEY`,
require `type == "refresh"`, require `sub` and `email` present; every
failure returns `None`. -/
def verify_refresh_token (token : Token) (now : ℕ) : Option TokenData :=
  match jwtDecode token REFRESH_SECRET_KEY now with
  | none => none
  | some payload =>
    if payload.type ≠ "refresh" then none
    else match payload.sub, payload.email with
      | some user_id, some email =>
        some { user_id := user_id, email := email, role := payload.role,
               exp := payload.exp }
      | _, _ => none

/-- The token bundle returned by `AuthManager.generate_tokens`. -/
structure TokenPair where
  access_token : Token
  refresh_token : Token
  token_type : String
  expires_in : ℕ
deriving DecidableEq, Repr

/-- `AuthManager.generate_tokens`: payload `{sub: user.id, email, role,
name}`, one access and one refresh token, `token_type = "bearer"`,
`expires_in = 30 * 60` seconds. -/
def generate_tokens (user : UserRec) (now : ℕ) : TokenPair :=
  let sub := some user.id
  let email := some user.email
  let role := some user.role
  let name := some user.name
  { access_token := create_access_token sub email role name none now,
    refresh_token := create_refresh_token sub email role name now,
    token_type := "bearer",
    expires_in := ACCESS_TOKEN_EXPIRE_MINUTES * 60 }

/-! ## Login guard (backend/app/api/auth.py, `AuthService.authenticate_user`)

The password check `verify_password(password, user.hashed_password)` is
kept as an oracle parameter `verify : String → String → Bool` (bcrypt is
outside the embedding).  The function returns its outcome together with
the user row as committed to the database: an `HTTPException` raised
before any `db.commit()` (the pre-check lockout branch) leaves the row
unchanged. -/

/-- `MAX_LOGIN_ATTEMPTS = 5`. -/
def MAX_LOGIN_ATTEMPTS : ℕ := 5

/-- `LOCKOUT_DURATION_MINUTES = 15`. -/
def LOCKOUT_DURATION_MINUTES : ℕ := 15

/-- Outcome of `AuthService.authenticate_user`. -/
inductive AuthResult where
  /-- `return None`: no user with this email. -/
  | noUser : AuthResult
  /-- HTTP 423 raised before the password check, message states the
  unlock time `t`. -/
  | lockedUntil (t : ℕ) : AuthResult
  /-- HTTP 423 raised on the failed attempt that locks the account. -/
  | lockedNow : AuthResult
  /-- `return None`: wrong password (counter committed). -/
  | wrongPassword : AuthResult
  /-- `return user`. -/
  | success : AuthResult
deriving DecidableEq, Repr

/-- `AuthService.authenticate_user`, returning the outcome and the user
row as left in durable storage. -/
def authenticate_user (user : Option UserRec)
    (verify : String → String → Bool) (password : String) (now : ℕ) :
    AuthResult × Option UserRec :=
  match user with
  | none => (.noUser, none)
  | some u =>
    -- `if user.locked_until and user.locked_until > datetime.utcnow()`
    if (u.locked_until.map (fun t => decide (now < t))).getD false then
      (.lockedUntil (u.locked_until.getD 0), some u)
    else if ¬ verify password u.hashed_password then
      -- `user.login_attempts += 1`
      let attempts := u.login_attempts + 1
      if MAX_LOGIN_ATTEMPTS ≤ attempts then
        (.lockedNow,
         some { u with locked_until := some (now + LOCKOUT_DURATION_MINUTES),
                       login_attempts := 0 })
      else
        (.wrongPassword, some { u with login_attempts := attempts })
    else
      (.success,
       some { u with login_attempts := 0, last_login := some now,
                     locked_until := none })

/-- Outcome of the password-change / password-reset endpoints. -/
inductive PasswordResult where
  /-- HTTP 400: old password wrong (change) or token invalid (reset). -/
  | rejected : PasswordResult
  /-- success response. -/
  | ok : PasswordResult
deriving DecidableEq, Repr

/-- `change_password` endpoint body: verify the old password against the
current hash; on success replace `hashed_password` with the new hash and
commit; on failure raise HTTP 400 without touching the row. -/
def change_password (current_user : UserRec)
    (verify : String → String → Bool) (old_password : String)
    (new_hash : String) : PasswordResult × UserRec :=
  if ¬ verify old_password current_user.hashed_password then
    (.rejected, current_user)
  else
    (.ok, { current_user with hashed_password := new_hash })

/-- `reset_password` endpoint body after a valid reset token resolved to
this user: set the new hash, reset `login_attempts` to 0, clear
`locked_until`, commit. -/
def reset_password (user : UserRec) (new_hash : String) : UserRec :=
  { user with hashed_password := new_hash, login_attempts := 0,
              locked_until := none }

/-! ## Appointment deletion (backend/app/api/appointments.py) -/

/-- Outcome of the `DELETE /appointments/{id}` endpoint. -/
inductive DeleteResult where
  /-- HTTP 404: no such appointment. -/
  | notFound : DeleteResult
  /-- HTTP 400: only pending appointments may be deleted. -/
  | badStatus : DeleteResult
  /-- deletion succeeded. -/
  | ok : DeleteResult
deriving DecidableEq, Repr

/-- `CRUDBase.get`: first record with the given id. -/
def apptGet (store : List AppointmentRec) (id : String) :
    Option AppointmentRec :=
  store.find? (fun a => a.id = id)

/-- `CRUDBase.delete`: `db.delete` on the record `get` found, i.e. the
first record with the given id is removed. -/
def apptRemove (store : List AppointmentRec) (id : String) :
    List AppointmentRec :=
  match store with
  | [] => []
  | a :: rest => if a.id = id then rest else a :: apptRemove rest id

/-- `delete_appointment` endpoint: look the appointment up; missing → 404;
`status != "pending"` → 400 and the store untouched; otherwise
`CRUDBase.delete` removes the record and commits. -/
def delete_appointment (store : List AppointmentRec) (id : String) :
    DeleteResult × List AppointmentRec :=
  match apptGet store id with
  | none => (.notFound, store)
  | some a =>
    if a.status ≠ "pending" then (.badStatus, store)
    else (.ok, apptRemove store id)

/-! ## Teacher rating recompute (backend/app/db/crud.py,
backend/app/api/teachers.py) -/

/-- `CRUDReview.get_by_teacher`: the teacher's reviews (sums below do not
depend on the `date desc` ordering the query applies). -/
def reviewsByTeacher (reviews : List ReviewRec) (teacher_id : String) :
    List ReviewRec :=
  reviews.filter (fun r => r.teacher_id = teacher_id)

/-- `CRUDReview.get_teacher_rating_stats`: zero stats when the teacher has
no reviews; otherwise each of the five dimensions is summed with
`r.ratings.get(dim, 0)`, divided by the review count and rounded to one
decimal. -/
def get_teacher_rating_stats (reviews : List ReviewRec)
    (teacher_id : String) : RatingStats :=
  let tr := reviewsByTeacher reviews teacher_id
  if tr.isEmpty then
    { overall := 0, teaching := 0, patience := 0, communication := 0,
      effectiveness := 0, count := 0 }
  else
    let count := tr.length
    { overall := round1 ((tr.map (fun r => r.ratings.overall.getD 0)).sum / count),
      teaching := round1 ((tr.map (fun r => r.ratings.teaching.getD 0)).sum / count),
      patience := round1 ((tr.map (fun r => r.ratings.patience.getD 0)).sum / count),
      communication := round1 ((tr.map (fun r => r.ratings.communication.getD 0)).sum / count),
      effectiveness := round1 ((tr.map (fun r => r.ratings.effectiveness.getD 0)).sum / count),
      count := count }

/-- `CRUDUser.update_teacher_rating`: sets `rating` and `reviews_count` on
the teacher row and commits; no other column is written. -/
def update_teacher_rating (teacher : UserRec) (new_rating : ℚ)
    (review_count : ℕ) : UserRec :=
  { teacher with rating := new_rating, reviews_count := review_count }

/-- Failure outcomes of `POST /teachers/{id}/reviews`. -/
inductive ReviewError where
  /-- HTTP 404: no such user, or not a teacher. -/
  | teacherNotFound : ReviewError
  /-- HTTP 404: no such appointment. -/
  | appointmentNotFound : ReviewError
  /-- HTTP 400: appointment belongs to a different teacher. -/
  | teacherMismatch : ReviewError
  /-- HTTP 400: the appointment already has a review. -/
  | alreadyReviewed : ReviewError
deriving DecidableEq, Repr

/-- `create_teacher_review` endpoint: validate teacher, appointment and
uniqueness; store the review with `teacher_id` overwritten; recompute the
rating stats over all of the teacher's reviews and write `rating` and
`reviews_count` back via `update_teacher_rating`.  Returns the updated
teacher row and review table. -/
def create_teacher_review (teacher : Option UserRec) (teacher_id : String)
    (appointments : List AppointmentRec) (reviews : List ReviewRec)
    (review_data : ReviewRec) :
    Except ReviewError (UserRec × List ReviewRec) :=
  match teacher with
  | none => .error .teacherNotFound
  | some t =>
    if t.role ≠ "teacher" then .error .teacherNotFound
    else match appointments.find? (fun a => a.id = review_data.appointment_id) with
    | none => .error .appointmentNotFound
    | some app =>
      if app.teacher_id ≠ teacher_id then .error .teacherMismatch
      else if (reviews.find? (fun r => r.appointment_id = review_data.appointment_id)).isSome then
        .error .alreadyReviewed
      else
        let reviews2 := reviews ++ [{ review_data with teacher_id := teacher_id }]
        let rating_stats := get_teacher_rating_stats reviews2 teacher_id
        .ok (update_teacher_rating t rating_stats.overall rating_stats.count,
             reviews2)

/-! ## Analytics aggregator (backend/app/api/analytics.py) -/

/-- The per-subject block of `StudentAnalytics`
(`SubjectImprovement` in backend/app/models/schemas.py). -/
structure SubjectImprovement where
  subject : String
  total_improvement : ℚ
  average_improvement : ℚ
  improvement_percent : ℚ
  record_count : ℕ
  lesson_count : ℕ
  latest_score : ℚ
  initial_score : ℚ
deriving DecidableEq, Repr

/-- `StudentAnalytics` response model; `improvements_by_subject` keeps the
Python dict's insertion order (first occurrence of each subject). -/
structure StudentAnalytics where
  student_id : String
  total_improvement : ℚ
  total_lessons : ℕ
  subjects_count : ℕ
  improvements_by_subject : List (String × SubjectImprovement)
deriving DecidableEq, Repr

/-- `TeacherAnalytics` response model. -/
structure TeacherAnalytics where
  teacher_id : String
  students_count : ℕ
  average_improvement : ℚ
  total_lessons : ℕ
  recommendation_rate : ℚ
  total_reviews : ℕ
deriving DecidableEq, Repr

/-- Subjects of a record list in first-occurrence order — the key set of
the `subjects_data` dict built by `get_student_analytics`. -/
def subjectsOf (rs : List ScoreRecord) : List String :=
  rs.foldl (fun acc r => if r.subject ∈ acc then acc else acc ++ [r.subject]) []

/-- Stable insertion of a record into a date-sorted list: the record goes
in front of the first element whose date is not smaller, so an earlier
element of the original list stays in front of later equal-date ones. -/
def insertByDate (r : ScoreRecord) : List ScoreRecord → List ScoreRecord
  | [] => [r]
  | a :: rest => if a.date < r.date then a :: insertByDate r rest
                 else r :: a :: rest

/-- `sorted(data["records"], key=lambda x: x.date)`: Python's stable sort
by date, realised as a stable insertion sort. -/
def sortByDate : List ScoreRecord → List ScoreRecord
  | [] => []
  | r :: rs => insertByDate r (sortByDate rs)

/-- One subject's block of the student analytics: the bucket is the
student's records of that subject in original order (the dict appends in
iteration order); records are then sorted by date. -/
def mkSubjectImprovement (subject : String) (bucket : List ScoreRecord) :
    SubjectImprovement :=
  let records := sortByDate bucket
  let subject_improvements := records.map (fun r => r.after_score - r.before_score)
  let total_subject_improvement := subject_improvements.sum
  let avg_improvement :=
    if records.isEmpty then 0 else total_subject_improvement / records.length
  let initial_score := (records.headD default).before_score
  let latest_score := (records.getLastD default).after_score
  let improvement_percent :=
    if 0 < initial_score then (latest_score - initial_score) / initial_score * 100
    else 0
  { subject := subject,
    total_improvement := total_subject_improvement,
    average_improvement := avg_improvement,
    improvement_percent := round1 improvement_percent,
    record_count := records.length,
    lesson_count := (bucket.map (fun r => r.lesson_count)).sum,
    latest_score := latest_score,
    initial_score := initial_score }

/-- `get_student_analytics` endpoint body, the statistics over the
student's score records (`score_record.get_by_student` result): zero
result with an empty map when there are none; otherwise group by subject,
compute each subject's block, and sum totals across subjects (the overall
total improvement rounded to one decimal). -/
def get_student_analytics (student_id : String)
    (score_records : List ScoreRecord) : StudentAnalytics :=
  if score_records.isEmpty then
    { student_id := student_id, total_improvement := 0, total_lessons := 0,
      subjects_count := 0, improvements_by_subject := [] }
  else
    let subjects := subjectsOf score_records
    let entries := subjects.map (fun s =>
      (s, mkSubjectImprovement s
            (score_records.filter (fun r => r.subject = s))))
    { student_id := student_id,
      total_improvement :=
        round1 ((entries.map (fun e => e.2.total_improvement)).sum),
      total_lessons := (entries.map (fun e => e.2.lesson_count)).sum,
      subjects_count := subjects.length,
      improvements_by_subject := entries }

/-- `ScoreRecord.get_by_teacher`: the teacher's score records (the sums
and counts below do not depend on the `date desc` ordering). -/
def scoreRecordsByTeacher (rs : List ScoreRecord) (teacher_id : String) :
    List ScoreRecord :=
  rs.filter (fun r => r.teacher_id = teacher_id)

/-- `get_teacher_analytics` endpoint body over the teacher's score records
and reviews: distinct-student count, lesson sum, mean improvement (0 when
no records), recommendation rate (0 when no reviews), review count; the
mean and the rate rounded to one decimal. -/
def get_teacher_analytics (teacher_id : String)
    (all_score_records : List ScoreRecord) (all_reviews : List ReviewRec) :
    TeacherAnalytics :=
  let score_records := scoreRecordsByTeacher all_score_records teacher_id
  let reviews := reviewsByTeacher all_reviews teacher_id
  let students_count := ((score_records.map (fun r => r.student_id)).dedup).length
  let total_lessons := (score_records.map (fun r => r.lesson_count)).sum
  let avg_improvement : ℚ :=
    if score_records.isEmpty then 0
    else
      let improvements := score_records.map (fun r => r.after_score - r.before_score)
      improvements.sum / improvements.length
  let recommendation_rate : ℚ :=
    if reviews.isEmpty then 0
    else
      let recommended_count := (reviews.filter (fun r => r.is_recommended)).length
      ((recommended_count : ℚ) / reviews.length) * 100
  { teacher_id := teacher_id,
    students_count := students_count,
    average_improvement := round1 avg_improvement,
    total_lessons := total_lessons,
    recommendation_rate := round1 recommendation_rate,
    total_reviews := reviews.length }

/-! ## Concrete fixtures used by examples and witnesses -/

/-- A sample user row. -/
def sampleUser : UserRec :=
  { id := "u1", name := "Alice", email := "alice@example.com",
    role := "student", hashed_password := "H", is_active := true,
    last_login := none, login_attempts := 0, locked_until := none,
    rating := 0, reviews_count := 0, detailed_ratings := none }

/-- A sample teacher row with no reviews yet and no detailed ratings. -/
def sampleTeacher : UserRec :=
  { id := "t1", name := "Bob", email := "bob@example.com",
    role := "teacher", hashed_password := "H", is_active := true,
    last_login := none, login_attempts := 0, locked_until := none,
    rating := 0, reviews_count := 0, detailed_ratings := none }

/-- A completed appointment of `sampleTeacher`. -/
def sampleAppt : AppointmentRec :=
  { id := "a1", teacher_id := "t1", student_id := some "s1",
    status := "completed" }

/-- A five-dimension rating payload. -/
def sampleRatings : Ratings :=
  { overall := some 4, teaching := some 5, patience := some 3,
    communication := some 4, effectiveness := some 4 }

/-- A review submitted for `sampleAppt`. -/
def sampleReview : ReviewRec :=
  { id := "rv1", appointment_id := "a1", teacher_id := "",
    student_name := "Stu", ratings := sampleRatings,
    is_recommended := true, date := 1 }

/-- Three reviews of teacher t1 of which two are recommended. -/
def threeReviews : List ReviewRec :=
  [{ id := "r1", appointment_id := "a1", teacher_id := "t1",
     student_name := "S1", ratings := sampleRatings,
     is_recommended := true, date := 1 },
   { id := "r2", appointment_id := "a2", teacher_id := "t1",
     student_name := "S2", ratings := sampleRatings,
     is_recommended := true, date := 2 },
   { id := "r3", appointment_id := "a3", teacher_id := "t1",
     student_name := "S3", ratings := sampleRatings,
     is_recommended := false, date := 3 }]

/-- Score record 85 → 95 (spec example, earlier date). -/
def mathRecord1 : ScoreRecord :=
  { student_id := "s1", teacher_id := "t1", subject := "Math",
    before_score := 85, after_score := 95, lesson_count := 10, date := 1 }

/-- Score record 95 → 110 (spec example, later date). -/
def mathRecord2 : ScoreRecord :=
  { student_id := "s1", teacher_id := "t1", subject := "Math",
    before_score := 95, after_score := 110, lesson_count := 10, date := 2 }

/-- A pending appointment. -/
def pendingAppt : AppointmentRec :=
  { id := "p1", teacher_id := "t1", student_id := some "s1",
    status := "pending" }

/-- A confirmed appointment. -/
def confirmedAppt : AppointmentRec :=
  { id := "c1", teacher_id := "t1", student_id := some "s1",
    status := "confirmed" }

/-! ## Evaluation lemmas for `round1` -/

/-- Evaluate `roundHalfEven` when the fractional part is below 1/2. -/
theorem roundHalfEven_of_lt_half (q : ℚ) (f : ℤ) (hf : ⌊q⌋ = f)
    (h : q - f < 1/2) : roundHalfEven q = f := by
  unfold roundHalfEven
  rw [hf, if_pos h]

/-- Evaluate `roundHalfEven` when the fractional part is above 1/2. -/
theorem roundHalfEven_of_half_lt (q : ℚ) (f : ℤ) (hf : ⌊q⌋ = f)
    (h : 1/2 < q - f) : roundHalfEven q = f + 1 := by
  unfold roundHalfEven
  rw [hf, if_neg (by linarith), if_pos h]

/-- Evaluate `round1` when the first decimal rounds down. -/
theorem round1_eq_of_lt_half (q : ℚ) (f : ℤ) (hf : ⌊q * 10⌋ = f)
    (h : q * 10 - f < 1/2) : round1 q = (f : ℚ) / 10 := by
  unfold round1
  rw [roundHalfEven_of_lt_half (q * 10) f hf h]

/-- Evaluate `round1` when the first decimal rounds up. -/
theorem round1_eq_of_half_lt (q : ℚ) (f : ℤ) (hf : ⌊q * 10⌋ = f)
    (h : 1/2 < q * 10 - f) : round1 q = ((f : ℚ) + 1) / 10 := by
  unfold round1
  rw [roundHalfEven_of_half_lt (q * 10) f hf h]
  push_cast
  ring

/-- `round1` fixes rationals that are already integral multiples of one
tenth. -/
theorem round1_tenth_multiple (f : ℤ) : round1 ((f : ℚ) / 10) = f / 10 := by
  have h10 : ((f : ℚ) / 10) * 10 = f := by ring
  have hf : ⌊((f : ℚ) / 10) * 10⌋ = f := by
    rw [h10]
    exact Int.floor_intCast f
  rw [round1_eq_of_lt_half _ f hf (by rw [h10]; norm_num)]

/-- `round1 0 = 0`. -/
theorem round1_zero : round1 0 = 0 := by
  have := round1_tenth_multiple 0
  simpa using this

/-- `round1` fixes integers. -/
theorem round1_intCast (n : ℤ) : round1 (n : ℚ) = (n : ℚ) := by
  have h := round1_tenth_multiple (10 * n)
  have he : (((10 * n : ℤ) : ℚ)) / 10 = (n : ℚ) := by push_cast; ring
  rw [he] at h
  exact h

/-! ## Token service lemmas and claims -/

/-- `verify_access_token` fails exactly on: wrong key (bad signature),
expiry reached, wrong type tag, or a missing `sub` or `email` claim. -/
theorem verify_access_token_eq_none_iff (token : Token) (now : ℕ) :
    verify_access_token token now = none ↔
      token.key ≠ SECRET_KEY ∨ token.claims.exp ≤ now ∨
      token.claims.type ≠ "access" ∨ token.claims.sub = none ∨
      token.claims.email = none := by
  unfold verify_access_token jwtDecode
  by_cases hk : token.key = SECRET_KEY
  · by_cases he : token.claims.exp ≤ now
    · simp [hk, he]
    · by_cases ht : token.claims.type = "access"
      · cases hs : token.claims.sub with
        | none => simp [hk, he, ht, hs]
        | some u =>
          cases hm : token.claims.email with
          | none => simp [hk, he, ht, hs, hm]
          | some e => simp [hk, he, ht, hs, hm]
      · simp [hk, he, ht]
  · simp [hk]

/-- `verify_refresh_token` fails exactly on: wrong key, expiry reached,
wrong type tag, or a missing `sub` or `email` claim. -/
theorem verify_refresh_token_eq_none_iff (token : Token) (now : ℕ) :
    verify_refresh_token token now = none ↔
      token.key ≠ REFRESH_SECRET_KEY ∨ token.claims.exp ≤ now ∨
      token.claims.type ≠ "refresh" ∨ token.claims.sub = none ∨
      token.claims.email = none := by
  unfold verify_refresh_token jwtDecode
  by_cases hk : token.key = REFRESH_SECRET_KEY
  · by_cases he : token.claims.exp ≤ now
    · simp [hk, he]
    · by_cases ht : token.claims.type = "refresh"
      · cases hs : token.claims.sub with
        | none => simp [hk, he, ht, hs]
        | some u =>
          cases hm : token.claims.email with
          | none => simp [hk, he, ht, hs, hm]
          | some e => simp [hk, he, ht, hs, hm]
      · simp [hk, he, ht]
  · simp [hk]

/-- C2: issuing a token pair and immediately verifying the access token
yields claims whose `user_id` is the user's id, while verifying that same
access token as a refresh token yields `None` (different secret key and a
type tag that is "access", not "refresh"). -/
theorem access_token_roundtrip_refresh_rejects (user : UserRec) (now : ℕ) :
    (∃ td : TokenData,
        verify_access_token (generate_tokens user now).access_token now =
          some td ∧ td.user_id = user.id) ∧
    verify_refresh_token (generate_tokens user now).access_token now =
      none := by
  constructor
  · refine ⟨{ user_id := user.id, email := user.email,
              role := some user.role,
              exp := now + ACCESS_TOKEN_EXPIRE_MINUTES }, ?_, rfl⟩
    have h30 : ¬ (now + ACCESS_TOKEN_EXPIRE_MINUTES ≤ now) := by
      unfold ACCESS_TOKEN_EXPIRE_MINUTES; omega
    simp [generate_tokens, create_access_token, verify_access_token,
          jwtDecode, h30]
  · rw [verify_refresh_token_eq_none_iff]
    left
    simp [generate_tokens, create_access_token, SECRET_KEY,
          REFRESH_SECRET_KEY]

/-- C7: each verifier is a total function into an option type — every
token either yields decoded claims or the single invalid result `none` —
and every failure cause (bad signature key, expiry, wrong type tag,
missing `sub` or `email` claim) collapses to that same `none`, so callers
cannot tell why a token failed. -/
theorem verifiers_uniform_invalid (token : Token) (now : ℕ) :
    ((∃ td, verify_access_token token now = some td) ∨
      verify_access_token token now = none) ∧
    (verify_access_token token now = none ↔
      token.key ≠ SECRET_KEY ∨ token.claims.exp ≤ now ∨
      token.claims.type ≠ "access" ∨ token.claims.sub = none ∨
      token.claims.email = none) ∧
    (verify_refresh_token token now = none ↔
      token.key ≠ REFRESH_SECRET_KEY ∨ token.claims.exp ≤ now ∨
      token.claims.type ≠ "refresh" ∨ token.claims.sub = none ∨
      token.claims.email = none) := by
  refine ⟨?_, verify_access_token_eq_none_iff token now,
          verify_refresh_token_eq_none_iff token now⟩
  cases h : verify_access_token token now with
  | none => exact Or.inr rfl
  | some td => exact Or.inl ⟨td, rfl⟩

/-! ## Login guard claims -/

/-- C5: a login attempt against an account whose `locked_until` lies in
the future is rejected immediately with the unlock time in the message
and the row unchanged, and the outcome does not depend on the password or
the password verifier at all — the credential check is unreachable. -/
theorem locked_account_rejects_without_credential_check (u : UserRec)
    (t now : ℕ) (pw : String) (v : String → String → Bool)
    (hlock : u.locked_until = some t) (hfut : now < t) :
    authenticate_user (some u) v pw now = (.lockedUntil t, some u) ∧
    (∀ (v1 v2 : String → String → Bool) (pw1 pw2 : String),
      authenticate_user (some u) v1 pw1 now =
        authenticate_user (some u) v2 pw2 now) := by
  constructor
  · simp [authenticate_user, hlock, hfut]
  · intro v1 v2 pw1 pw2
    simp [authenticate_user, hlock, hfut]

/-- Closed instance of C5: a user locked until minute 10, probed at
minute 5 with a verifier that would accept any password, is still
rejected with the unlock time. -/
theorem locked_account_rejects_witness :
    authenticate_user (some { sampleUser with locked_until := some 10 })
        (fun _ _ => true) "pw" 5 =
      (.lockedUntil 10, some { sampleUser with locked_until := some 10 }) :=
  (locked_account_rejects_without_credential_check
      { sampleUser with locked_until := some 10 } 10 5 "pw"
      (fun _ _ => true) rfl (by decide)).1

/-- C6: with `locked_until` null or elapsed and a correct password, login
succeeds and commits `login_attempts = 0`, `locked_until = null`,
`last_login = now`, whatever the prior attempt count. -/
theorem successful_login_resets (u : UserRec) (now : ℕ) (pw : String)
    (v : String → String → Bool)
    (hunlocked : u.locked_until = none ∨
      ∃ t, u.locked_until = some t ∧ t ≤ now)
    (hv : v pw u.hashed_password = true) :
    authenticate_user (some u) v pw now =
      (.success, some { u with
        login_attempts := 0
        last_login := some now
        locked_until := none }) := by
  rcases hunlocked with hnone | ⟨t, hsome, ht⟩
  · simp [authenticate_user, hnone, hv]
  · have hnlt : ¬ now < t := by omega
    simp [authenticate_user, hsome, hnlt, hv]

/-- Closed instance of C6: a user with 3 failed attempts and a lock that
elapsed at minute 2, logging in correctly at minute 5, ends up reset. -/
theorem successful_login_resets_witness :
    authenticate_user
        (some { sampleUser with login_attempts := 3, locked_until := some 2 })
        (fun _ _ => true) "pw" 5 =
      (.success, some { sampleUser with
        login_attempts := 0
        last_login := some 5
        locked_until := none }) :=
  successful_login_resets
    { sampleUser with login_attempts := 3, locked_until := some 2 }
    5 "pw" (fun _ _ => true) (Or.inr ⟨2, rfl, by decide⟩) rfl

/-- C1: on an unlocked account, a wrong password commits the incremented
attempt counter while the call reports failure; when the incremented
count reaches `MAX_LOGIN_ATTEMPTS = 5` the account is committed locked
for `LOCKOUT_DURATION_MINUTES = 15` minutes with the counter reset
to 0. -/
theorem failed_login_increments_and_locks (u : UserRec) (now : ℕ)
    (pw : String) (v : String → String → Bool)
    (hunlocked : u.locked_until = none ∨
      ∃ t, u.locked_until = some t ∧ t ≤ now)
    (hv : v pw u.hashed_password = false) :
    (u.login_attempts + 1 < MAX_LOGIN_ATTEMPTS →
      authenticate_user (some u) v pw now =
        (.wrongPassword,
         some { u with login_attempts := u.login_attempts + 1 })) ∧
    (MAX_LOGIN_ATTEMPTS ≤ u.login_attempts + 1 →
      authenticate_user (some u) v pw now =
        (.lockedNow, some { u with
          locked_until := some (now + LOCKOUT_DURATION_MINUTES)
          login_attempts := 0 })) := by
  have hcond : (u.locked_until.map (fun t => decide (now < t))).getD false
      = false := by
    rcases hunlocked with hnone | ⟨t, hsome, ht⟩
    · simp [hnone]
    · have : ¬ now < t := by omega
      simp [hsome, this]
  constructor
  · intro hlt
    have : ¬ MAX_LOGIN_ATTEMPTS ≤ u.login_attempts + 1 := by omega
    simp [authenticate_user, hcond, hv, this]
  · intro hge
    simp [authenticate_user, hcond, hv, hge]

/-- Closed instance of C1: a first wrong password takes the counter from
0 to 1 with a failure outcome; a wrong password on a counter of 4 locks
the account until minute 20 (= 5 + 15) and resets the counter. -/
theorem failed_login_increments_and_locks_witness :
    (authenticate_user (some sampleUser) (fun _ _ => false) "pw" 5 =
      (.wrongPassword, some { sampleUser with login_attempts := 1 })) ∧
    (authenticate_user (some { sampleUser with login_attempts := 4 })
        (fun _ _ => false) "pw" 5 =
      (.lockedNow, some { sampleUser with
        locked_until := some 20
        login_attempts := 0 })) :=
  ⟨(failed_login_increments_and_locks sampleUser 5 "pw" (fun _ _ => false)
      (Or.inl rfl) rfl).1 (by decide),
   (failed_login_increments_and_locks { sampleUser with login_attempts := 4 }
      5 "pw" (fun _ _ => false) (Or.inl rfl) rfl).2 (by decide)⟩

/-! ## Appointment deletion claim -/

/-- C9: deleting an existing appointment succeeds exactly when its status
is "pending"; any other status is rejected with the store untouched, and
a pending appointment is removed. -/
theorem delete_appointment_only_pending (store : List AppointmentRec)
    (id : String) (a : AppointmentRec) (hfind : apptGet store id = some a) :
    ((delete_appointment store id).1 = .ok ↔ a.status = "pending") ∧
    (a.status ≠ "pending" →
      delete_appointment store id = (.badStatus, store)) ∧
    (a.status = "pending" →
      delete_appointment store id = (.ok, apptRemove store id)) := by
  unfold delete_appointment
  rw [hfind]
  by_cases h : a.status = "pending" <;> simp [h]

/-- Closed instance of C9: in a store with one pending and one confirmed
appointment, deleting the confirmed one is rejected and changes nothing,
and deleting the pending one succeeds and removes it. -/
theorem delete_appointment_only_pending_witness :
    (delete_appointment [pendingAppt, confirmedAppt] "c1" =
      (.badStatus, [pendingAppt, confirmedAppt])) ∧
    (delete_appointment [pendingAppt, confirmedAppt] "p1" =
      (.ok, [confirmedAppt])) := by
  constructor
  · exact (delete_appointment_only_pending [pendingAppt, confirmedAppt]
      "c1" confirmedAppt (by decide)).2.1 (by decide)
  · have h := (delete_appointment_only_pending [pendingAppt, confirmedAppt]
      "p1" pendingAppt (by decide)).2.2 rfl
    rw [h]
    decide

/-! ## Password change claim -/

/-- C10: when the old password verifies, `change_password` replaces only
`hashed_password`: every other user field — in particular
`login_attempts`, `locked_until` and `last_login` — is unchanged, whereas
`reset_password` additionally clears the lockout state. -/
theorem change_password_updates_only_hash (u : UserRec)
    (v : String → String → Bool) (old newh : String)
    (hv : v old u.hashed_password = true) :
    change_password u v old newh =
      (.ok, { u with hashed_password := newh }) ∧
    (change_password u v old newh).2.hashed_password = newh ∧
    (change_password u v old newh).2.id = u.id ∧
    (change_password u v old newh).2.name = u.name ∧
    (change_password u v old newh).2.email = u.email ∧
    (change_password u v old newh).2.role = u.role ∧
    (change_password u v old newh).2.is_active = u.is_active ∧
    (change_password u v old newh).2.last_login = u.last_login ∧
    (change_password u v old newh).2.login_attempts = u.login_attempts ∧
    (change_password u v old newh).2.locked_until = u.locked_until ∧
    (change_password u v old newh).2.rating = u.rating ∧
    (change_password u v old newh).2.reviews_count = u.reviews_count ∧
    (change_password u v old newh).2.detailed_ratings = u.detailed_ratings ∧
    (reset_password u newh).login_attempts = 0 ∧
    (reset_password u newh).locked_until = none := by
  refine ⟨?_, ?_⟩
  · simp [change_password, hv]
  · simp [change_password, hv, reset_password]

/-- Closed instance of C10: a user with a pending lockout who changes
their password keeps the lockout counters, while a password reset clears
them. -/
theorem change_password_updates_only_hash_witness :
    (change_password
        { sampleUser with login_attempts := 2, locked_until := some 9 }
        (fun _ _ => true) "old" "NH").2.locked_until = some 9 ∧
    (reset_password
        { sampleUser with login_attempts := 2, locked_until := some 9 }
        "NH").locked_until = none :=
  ⟨(change_password_updates_only_hash
      { sampleUser with login_attempts := 2, locked_until := some 9 }
      (fun _ _ => true) "old" "NH" rfl).2.2.2.2.2.2.2.2.2.1,
   (change_password_updates_only_hash
      { sampleUser with login_attempts := 2, locked_until := some 9 }
      (fun _ _ => true) "old" "NH" rfl).2.2.2.2.2.2.2.2.2.2.2.2.2.2⟩

/-! ## Teacher analytics claim -/

/-- C8: teacher analytics reports the distinct-student count, the lesson
sum, the mean improvement over the teacher's score records (0 with none),
the recommendation rate 100 × recommended/total (0 with no reviews), and
the review count, the mean and the rate rounded to one decimal; 2
recommended reviews out of 3 give 66.7. -/
theorem teacher_analytics_formulas (tid : String) (rs : List ScoreRecord)
    (rvs : List ReviewRec) :
    (get_teacher_analytics tid rs rvs).students_count =
      ((rs.filter (fun r => r.teacher_id = tid)).map
        (fun r => r.student_id)).toFinset.card ∧
    (get_teacher_analytics tid rs rvs).total_lessons =
      ((rs.filter (fun r => r.teacher_id = tid)).map
        (fun r => r.lesson_count)).sum ∧
    (get_teacher_analytics tid rs rvs).average_improvement =
      (if (rs.filter (fun r => r.teacher_id = tid)).isEmpty then 0
       else round1 (((rs.filter (fun r => r.teacher_id = tid)).map
           (fun r => r.after_score - r.before_score)).sum /
         ((rs.filter (fun r => r.teacher_id = tid)).length : ℚ))) ∧
    (get_teacher_analytics tid rs rvs).recommendation_rate =
      (if (rvs.filter (fun r => r.teacher_id = tid)).isEmpty then 0
       else round1 (100 *
         (((rvs.filter (fun r => r.teacher_id = tid)).filter
             (fun r => r.is_recommended)).length : ℚ) /
         ((rvs.filter (fun r => r.teacher_id = tid)).length : ℚ))) ∧
    (get_teacher_analytics tid rs rvs).total_reviews =
      (rvs.filter (fun r => r.teacher_id = tid)).length ∧
    (get_teacher_analytics "t1" [] threeReviews).recommendation_rate =
      667 / 10 := by
  refine ⟨?_, rfl, ?_, ?_, rfl, ?_⟩
  · simp [get_teacher_analytics, scoreRecordsByTeacher, List.card_toFinset]
  · cases h : (rs.filter (fun r => r.teacher_id = tid)).isEmpty with
    | true => simp [get_teacher_analytics, scoreRecordsByTeacher, h,
        round1_zero]
    | false => simp [get_teacher_analytics, scoreRecordsByTeacher, h]
  · cases h : (rvs.filter (fun r => r.teacher_id = tid)).isEmpty with
    | true => simp [get_teacher_analytics, reviewsByTeacher, h, round1_zero]
    | false =>
      simp only [get_teacher_analytics, reviewsByTeacher, h,
        Bool.false_eq_true, if_false]
      congr 1
      ring
  · have hf : ⌊((2 : ℚ) / 3 * 100) * 10⌋ = 666 := by
      rw [Int.floor_eq_iff]
      constructor <;> norm_num
    have hv : round1 ((2 : ℚ) / 3 * 100) = 667 / 10 := by
      rw [round1_eq_of_half_lt _ 666 hf (by norm_num)]
      norm_num
    have hshape : (get_teacher_analytics "t1" [] threeReviews).recommendation_rate
        = round1 ((2 : ℚ) / 3 * 100) := by
      simp [get_teacher_analytics, reviewsByTeacher, threeReviews]
    rw [hshape, hv]

/-! ## Teacher rating recompute claim (C3) -/

/-- The rating statistics over the single stored `sampleReview`. -/
theorem sample_rating_stats :
    get_teacher_rating_stats [{ sampleReview with teacher_id := "t1" }]
        "t1" =
      { overall := 4, teaching := 5, patience := 3, communication := 4,
        effectiveness := 4, count := 1 } := by
  have h4 : round1 (4 : ℚ) = 4 := by
    have := round1_intCast 4
    norm_num at this
    exact this
  have h5 : round1 (5 : ℚ) = 5 := by
    have := round1_intCast 5
    norm_num at this
    exact this
  have h3 : round1 (3 : ℚ) = 3 := by
    have := round1_intCast 3
    norm_num at this
    exact this
  simp [get_teacher_rating_stats, reviewsByTeacher, sampleReview,
    sampleRatings]
  norm_num [h3, h4, h5]

/-- C3 refuted at a concrete input: creating the first review for
`sampleTeacher` succeeds and recomputes all five averaged dimensions, but
the committed teacher row keeps `detailed_ratings = none` — the detailed
ratings are not written back, contradicting the claim. -/
theorem review_recompute_counterexample :
    create_teacher_review (some sampleTeacher) "t1" [sampleAppt] []
        sampleReview =
      .ok ({ sampleTeacher with rating := 4, reviews_count := 1 },
           [{ sampleReview with teacher_id := "t1" }]) ∧
    ({ sampleTeacher with rating := 4, reviews_count := 1 } :
        UserRec).detailed_ratings ≠
      some (get_teacher_rating_stats
        [{ sampleReview with teacher_id := "t1" }] "t1") := by
  constructor
  · have h1 : create_teacher_review (some sampleTeacher) "t1" [sampleAppt]
        [] sampleReview =
        .ok (update_teacher_rating sampleTeacher
              (get_teacher_rating_stats
                [{ sampleReview with teacher_id := "t1" }] "t1").overall
              (get_teacher_rating_stats
                [{ sampleReview with teacher_id := "t1" }] "t1").count,
             [{ sampleReview with teacher_id := "t1" }]) := rfl
    rw [h1, sample_rating_stats]
    simp [update_teacher_rating]
  · simp [sampleTeacher]

/-- C3 as amended: after a new review is stored, the recompute averages
each of the five rating dimensions over all of that teacher's reviews
rounded to one decimal, and writes back only the overall rating and the
reviews count; the teacher's `detailed_ratings` column keeps its prior
value. -/
theorem review_recompute_amended (teacher : UserRec) (teacher_id : String)
    (appointments : List AppointmentRec) (reviews : List ReviewRec)
    (review_data : ReviewRec) (t2 : UserRec) (reviews2 : List ReviewRec)
    (hok : create_teacher_review (some teacher) teacher_id appointments
      reviews review_data = .ok (t2, reviews2)) :
    reviews2 = reviews ++ [{ review_data with teacher_id := teacher_id }] ∧
    t2.rating = (get_teacher_rating_stats reviews2 teacher_id).overall ∧
    t2.reviews_count =
      (get_teacher_rating_stats reviews2 teacher_id).count ∧
    t2.detailed_ratings = teacher.detailed_ratings ∧
    (∀ tr, tr = reviewsByTeacher reviews2 teacher_id → tr ≠ [] →
      get_teacher_rating_stats reviews2 teacher_id =
        { overall :=
            round1 ((tr.map (fun r => r.ratings.overall.getD 0)).sum /
              tr.length),
          teaching :=
            round1 ((tr.map (fun r => r.ratings.teaching.getD 0)).sum /
              tr.length),
          patience :=
            round1 ((tr.map (fun r => r.ratings.patience.getD 0)).sum /
              tr.length),
          communication :=
            round1 ((tr.map
              (fun r => r.ratings.communication.getD 0)).sum / tr.length),
          effectiveness :=
            round1 ((tr.map
              (fun r => r.ratings.effectiveness.getD 0)).sum / tr.length),
          count := tr.length }) := by
  simp only [create_teacher_review] at hok
  split at hok
  · exact absurd hok (by simp)
  · split at hok
    · exact absurd hok (by simp)
    · split at hok
      · exact absurd hok (by simp)
      · split at hok
        · exact absurd hok (by simp)
        · simp only [Except.ok.injEq, Prod.mk.injEq] at hok
          obtain ⟨ht2, hrev⟩ := hok
          subst hrev
          constructor
          · rfl
          refine ⟨?_, ?_, ?_, ?_⟩
          · rw [← ht2]; rfl
          · rw [← ht2]; rfl
          · rw [← ht2]; rfl
          · intro tr htr hne
            unfold get_teacher_rating_stats
            rw [← htr]
            rw [if_neg (by simpa [List.isEmpty_iff] using hne)]

/-- Closed instance of the amended C3: creating the first review of
`sampleTeacher` leaves the teacher's `detailed_ratings` at its prior
value. -/
theorem review_recompute_amended_witness :
    (update_teacher_rating sampleTeacher
        (get_teacher_rating_stats
          [{ sampleReview with teacher_id := "t1" }] "t1").overall
        (get_teacher_rating_stats
          [{ sampleReview with teacher_id := "t1" }] "t1").count
      ).detailed_ratings = sampleTeacher.detailed_ratings :=
  (review_recompute_amended sampleTeacher "t1" [sampleAppt] [] sampleReview
    _ _ rfl).2.2.2.1

/-! ## Student analytics claim (C4) -/

/-- Membership in the subject-accumulating fold. -/
theorem mem_foldl_subjects (rs : List ScoreRecord) (acc : List String)
    (s : String) :
    s ∈ rs.foldl
        (fun acc r => if r.subject ∈ acc then acc else acc ++ [r.subject])
        acc ↔
      s ∈ acc ∨ ∃ r ∈ rs, r.subject = s := by
  induction rs generalizing acc with
  | nil => simp
  | cons r rs ih =>
    rw [List.foldl_cons]
    by_cases h : r.subject ∈ acc
    · rw [if_pos h, ih]
      constructor
      · rintro (hs | ⟨x, hx, he⟩)
        · exact Or.inl hs
        · exact Or.inr ⟨x, List.mem_cons_of_mem r hx, he⟩
      · rintro (hs | ⟨x, hx, he⟩)
        · exact Or.inl hs
        · rcases List.mem_cons.mp hx with hxr | hxs
          · subst hxr
            exact Or.inl (he ▸ h)
          · exact Or.inr ⟨x, hxs, he⟩
    · rw [if_neg h, ih]
      constructor
      · rintro (hs | ⟨x, hx, he⟩)
        · rcases List.mem_append.mp hs with hs1 | hs2
          · exact Or.inl hs1
          · exact Or.inr ⟨r, List.mem_cons_self r rs,
              (List.mem_singleton.mp hs2).symm⟩
        · exact Or.inr ⟨x, List.mem_cons_of_mem r hx, he⟩
      · rintro (hs | ⟨x, hx, he⟩)
        · exact Or.inl (List.mem_append.mpr (Or.inl hs))
        · rcases List.mem_cons.mp hx with hxr | hxs
          · subst hxr
            exact Or.inl (List.mem_append.mpr
              (Or.inr (List.mem_singleton.mpr he.symm)))
          · exact Or.inr ⟨x, hxs, he⟩

/-- A subject appears in `subjectsOf rs` exactly when some record has
it. -/
theorem mem_subjectsOf (rs : List ScoreRecord) (s : String) :
    s ∈ subjectsOf rs ↔ ∃ r ∈ rs, r.subject = s := by
  unfold subjectsOf
  rw [mem_foldl_subjects]
  simp

/-- `insertByDate` adds exactly one element. -/
theorem length_insertByDate (r : ScoreRecord) (l : List ScoreRecord) :
    (insertByDate r l).length = l.length + 1 := by
  induction l with
  | nil => rfl
  | cons a rest ih =>
    unfold insertByDate
    by_cases h : a.date < r.date
    · simp [h, ih]
    · simp [h]

/-- `sortByDate` preserves length. -/
theorem length_sortByDate (l : List ScoreRecord) :
    (sortByDate l).length = l.length := by
  induction l with
  | nil => rfl
  | cons r rest ih => simp [sortByDate, length_insertByDate, ih]

/-- `sortByDate` of a nonempty list is nonempty. -/
theorem sortByDate_ne_nil (l : List ScoreRecord) (h : l ≠ []) :
    sortByDate l ≠ [] := by
  intro he
  apply h
  have := length_sortByDate l
  rw [he] at this
  exact List.length_eq_zero.mp this.symm

/-- C4: per subject, student analytics reports total improvement =
Σ(after − before), average improvement = total / record count, and
improvement percent = (latest after − first before)/(first before) × 100
over the date-ordered records (0 when the first before-score is not
positive, and rounded to one decimal); a student with no score records
gets the zero result with an empty map; the records 85→95 then 95→110
give total 25, average 12.5 and percent 29.4. -/
theorem student_analytics_formulas :
    (∀ (sid : String) (rs : List ScoreRecord) (s : String)
        (si : SubjectImprovement),
      (s, si) ∈ (get_student_analytics sid rs).improvements_by_subject →
      si.subject = s ∧
      si.record_count =
        (sortByDate (rs.filter (fun r => r.subject = s))).length ∧
      si.total_improvement =
        ((sortByDate (rs.filter (fun r => r.subject = s))).map
          (fun r => r.after_score - r.before_score)).sum ∧
      si.average_improvement = si.total_improvement / si.record_count ∧
      si.improvement_percent =
        (if 0 < ((sortByDate (rs.filter (fun r => r.subject = s))).headD
              default).before_score
         then round1
           ((((sortByDate (rs.filter (fun r => r.subject = s))).getLastD
                default).after_score -
             ((sortByDate (rs.filter (fun r => r.subject = s))).headD
                default).before_score) /
            ((sortByDate (rs.filter (fun r => r.subject = s))).headD
                default).before_score * 100)
         else 0)) ∧
    (∀ sid : String, get_student_analytics sid [] =
      { student_id := sid, total_improvement := 0, total_lessons := 0,
        subjects_count := 0, improvements_by_subject := [] }) ∧
    (get_student_analytics "s1"
        [mathRecord1, mathRecord2]).improvements_by_subject =
      [("Math",
        { subject := "Math", total_improvement := 25,
          average_improvement := 25/2, improvement_percent := 147/5,
          record_count := 2, lesson_count := 20,
          latest_score := 110, initial_score := 85 })] := by
  refine ⟨?_, fun _ => rfl, ?_⟩
  · intro sid rs s si hmem
    cases hrs : rs.isEmpty with
    | true => simp [get_student_analytics, hrs] at hmem
    | false =>
      simp only [get_student_analytics, hrs, Bool.false_eq_true, if_false,
        List.mem_map] at hmem
      obtain ⟨a, ha, heq⟩ := hmem
      rw [Prod.mk.injEq] at heq
      obtain ⟨h1, h2⟩ := heq
      subst h1
      subst h2
      have hbucket : rs.filter (fun r => r.subject = a) ≠ [] := by
        obtain ⟨r, hr, hsub⟩ := (mem_subjectsOf rs a).mp ha
        intro hnil
        have hrmem : r ∈ rs.filter (fun r => r.subject = a) :=
          List.mem_filter.mpr ⟨hr, by simp [hsub]⟩
        rw [hnil] at hrmem
        exact List.not_mem_nil r hrmem
      have hrecs : sortByDate (rs.filter (fun r => r.subject = a)) ≠ [] :=
        sortByDate_ne_nil _ hbucket
      have hrecsE :
          (sortByDate (rs.filter (fun r => r.subject = a))).isEmpty =
            false := by
        cases he : sortByDate (rs.filter (fun r => r.subject = a)) with
        | nil => exact absurd he hrecs
        | cons x xs => rfl
      refine ⟨rfl, rfl, rfl, ?_, ?_⟩
      · simp [mkSubjectImprovement, hrecsE]
      · by_cases hini :
          0 < ((sortByDate (rs.filter (fun r => r.subject = a))).headD
            default).before_score
        · rw [if_pos hini]
          simp only [mkSubjectImprovement]
          rw [if_pos hini]
        · rw [if_neg hini]
          simp only [mkSubjectImprovement]
          rw [if_neg hini, round1_zero]
  · have hfM : (([mathRecord1, mathRecord2] :
        List ScoreRecord).filter (fun r => r.subject = "Math")) =
        [mathRecord1, mathRecord2] := by
      simp [mathRecord1, mathRecord2]
    have hsort : sortByDate [mathRecord1, mathRecord2] =
        [mathRecord1, mathRecord2] := by
      simp [sortByDate, insertByDate, mathRecord1, mathRecord2]
    have h500 : round1 ((500 : ℚ)/17) = 147/5 := by
      have hf : ⌊((500 : ℚ)/17) * 10⌋ = 294 := by
        rw [Int.floor_eq_iff]
        constructor <;> norm_num
      rw [round1_eq_of_lt_half _ 294 hf (by norm_num)]
      norm_num
    have hhead : ([mathRecord1, mathRecord2] :
        List ScoreRecord).headD default = mathRecord1 := rfl
    have hlast : ([mathRecord1, mathRecord2] :
        List ScoreRecord).getLastD default = mathRecord2 := rfl
    have hmk : mkSubjectImprovement "Math" [mathRecord1, mathRecord2] =
        { subject := "Math", total_improvement := 25,
          average_improvement := 25/2, improvement_percent := 147/5,
          record_count := 2, lesson_count := 20,
          latest_score := 110, initial_score := 85 } := by
      simp only [mkSubjectImprovement, hsort, hhead, hlast]
      norm_num [mathRecord1, mathRecord2, h500]
    have hsubj : subjectsOf [mathRecord1, mathRecord2] = ["Math"] := rfl
    have hne : ([mathRecord1, mathRecord2] :
        List ScoreRecord).isEmpty = false := rfl
    simp only [get_student_analytics, hne, Bool.false_eq_true, if_false,
      hsubj, List.map_cons, List.map_nil, hfM, hmk]

/-- Closed instance of C4: the "Math" entry computed for the example
records has its record count equal to the length of the date-sorted
filtered records. -/
theorem student_analytics_formulas_witness :
    ({ subject := "Math", total_improvement := 25,
       average_improvement := 25/2, improvement_percent := 147/5,
       record_count := 2, lesson_count := 20,
       latest_score := 110, initial_score := 85 } :
      SubjectImprovement).record_count =
      (sortByDate (([mathRecord1, mathRecord2] :
        List ScoreRecord).filter (fun r => r.subject = "Math"))).length :=
  (student_analytics_formulas.1 "s1" [mathRecord1, mathRecord2] "Math" _
    (by rw [student_analytics_formulas.2.2]
        exact List.mem_singleton.mpr rfl)).2.1

end Edu
